import Mathlib

/-!
Verification of the streaming reconciliation engine
(`src/api_utils/utils_ext/stream.py`, function `use_stream_response`).

The engine consumes queue items (raw strings, timestamp-wrapped records, or
plain dict records `{reason, body, done}`), merges each accepted fragment into
two accumulated buffers (`acc_reason_state`, `acc_body_state`) using a prefix
heuristic that tolerates both delta-shaped and cumulative-snapshot-shaped
producers, scans newly arrived reasoning text for a structural tool boundary
(regex `TOOL_STRUCTURE_PATTERN`), and yields cumulative output events.

Texts are modelled as `List Char` (Python `str` indexing/slicing is by code
point), timestamps as `ℚ` (the float values compared here are exact), and the
asynchronous poll loop is modelled on the queue-item level: timeouts and the
UI probes, which depend on wall-clock time, are outside this embedding.
-/

/-! ## Embedding of `TOOL_STRUCTURE_PATTERN` and `re.search`

The source pattern (stream.py line 13) is

  `(?:^|\n)\s*(?:` three backticks `[a-zA-Z0-9]*\s*)?<[a-zA-Z0-9_\-]+(?:\s|>)`

All character classes involved (whitespace, alphanumerics, backtick, `<`,
tag-name characters, `>`) are pairwise disjoint at every decision point, so
the backtracking search is deterministic and `re.search` is equivalent to the
leftmost-start scan implemented below.  `Match.start()` — the only part of the
match object the source uses — is the anchor position (the `\n` itself when
the anchor is a newline, position 0 when it is `^`). -/

/-- Python `\s` on ASCII text: space, tab, newline, carriage return,
vertical tab, form feed. -/
def isPySpace (c : Char) : Bool :=
  c = ' ' || c = '\t' || c = '\n' || c = '\r' || c = '\x0b' || c = '\x0c'

/-- The regex class `[a-zA-Z0-9]`. -/
def isAsciiAlnum (c : Char) : Bool :=
  c.isAlpha || c.isDigit

/-- The regex class `[a-zA-Z0-9_\-]` (tag-name characters). -/
def isTagNameChar (c : Char) : Bool :=
  isAsciiAlnum c || c = '_' || c = '-'

/-- After at least one tag-name character: consume further tag-name
characters, then require one terminator character (`\s` or `>`). -/
def matchTagTail : List Char → Bool
  | [] => false
  | c :: rest => if isTagNameChar c then matchTagTail rest else (isPySpace c || c = '>')

/-- Match `[a-zA-Z0-9_\-]+(?:\s|>)`, i.e. what must follow the `<`. -/
def matchTagAfterLt : List Char → Bool
  | [] => false
  | c :: rest => isTagNameChar c && matchTagTail rest

/-- Match `\s*(?:` fence `)?<tag...` starting right after the anchor. -/
def afterAnchor (cs : List Char) : Bool :=
  match cs.dropWhile isPySpace with
  | '<' :: rest => matchTagAfterLt rest
  | '`' :: '`' :: '`' :: rest =>
      match (rest.dropWhile isAsciiAlnum).dropWhile isPySpace with
      | '<' :: rest2 => matchTagAfterLt rest2
      | _ => false
  | _ => false

/-- Scan positions `i ≥ 1`: a match can only start at a newline character. -/
def toolSearchFrom : List Char → Nat → Option Nat
  | [], _ => none
  | c :: rest, i => if c = '\n' && afterAnchor rest then some i else toolSearchFrom rest (i + 1)

/-- `TOOL_STRUCTURE_PATTERN.search(text)`, returning `match.start()` of the
leftmost match (the source only ever reads `match.start()`).  At position 0
the `^` anchor applies; the `\n` alternative at position 0 is subsumed because
the subsequent `\s*` also consumes that newline. -/
def toolSearch (cs : List Char) : Option Nat :=
  if afterAnchor cs then some 0
  else
    match cs with
    | [] => none
    | _ :: rest => toolSearchFrom rest 1

/-! ## Python slicing helpers -/

/-- Python `s[:i]` for an `int` index: a negative index counts from the end
and clamps at 0; a large index clamps at the length. -/
def pyTake (cs : List Char) (i : Int) : List Char :=
  if i < 0 then cs.take ((cs.length : Int) + i).toNat else cs.take i.toNat

/-- Python `s[i:]` for an `int` index, mirroring `pyTake`. -/
def pyDrop (cs : List Char) (i : Int) : List Char :=
  if i < 0 then cs.drop ((cs.length : Int) + i).toNat else cs.drop i.toNat

/-- Python `s[-n:]`: the trailing `min n (length)` characters. -/
def lastChars (n : Nat) (cs : List Char) : List Char :=
  cs.drop (cs.length - n)

/-! ## Accumulation reconciler (stream.py lines 197–207)

`mergeReason` mirrors the source's sequential assignments exactly, including
their order: the accumulator is overwritten with the incoming value *before*
`new_reason_delta = p_reason[len(acc_reason_state):]` is evaluated, which the
inner shadowing `let` below reproduces. -/

/-- Lines 197–202: merge an incoming `reason` value, returning the new
`acc_reason_state` and `new_reason_delta`. -/
def mergeReason (accReasonState pReason : List Char) : List Char × List Char :=
  if !pReason.isEmpty && !accReasonState.isEmpty && accReasonState.isPrefixOf pReason then
    let accReasonState := pReason
    (accReasonState, pReason.drop accReasonState.length)
  else
    (accReasonState ++ pReason, pReason)

/-- Lines 204–207: merge an incoming `body` value into `acc_body_state`. -/
def mergeBody (accBodyState pBody : List Char) : List Char :=
  if !pBody.isEmpty && !accBodyState.isEmpty && accBodyState.isPrefixOf pBody then pBody
  else accBodyState ++ pBody

/-! ## Data model -/

/-- A normalized fragment record `{reason, body, done}` (a dict on the queue,
or the `data` payload of a timestamp-wrapped envelope). -/
structure Fragment where
  reason : List Char
  body : List Char
  done : Bool
deriving DecidableEq

/-- An item on the external event source (`STREAM_QUEUE`).  `sentinel` is the
`None` hard-termination marker; `rawStr` is a string that does not decode as
JSON; `wrapped` is a JSON string of the envelope `{"ts": …, "data": {…}}`;
`dict` is a plain record (or a JSON string decoding directly to one — the
source processes both identically). -/
inductive QueueItem where
  | sentinel : QueueItem
  | rawStr : List Char → QueueItem
  | wrapped : ℚ → Fragment → QueueItem
  | dict : Fragment → QueueItem
deriving DecidableEq

/-- An event yielded to the consumer.  `record` is the reconciled
`{reason, body, done}` dict; `rawText` is the opaque pass-through shape for a
legacy string (the spec's degraded-compatibility path — see claim C5 for
whether the live code ever produces it). -/
inductive OutputEvent where
  | record : List Char → List Char → Bool → OutputEvent
  | rawText : List Char → OutputEvent
deriving DecidableEq

/-- The loop-local mutable state of `use_stream_response` that the
per-fragment processing reads or writes. -/
structure LoopState where
  accReasonState : List Char
  accBodyState : List Char
  boundaryBuffer : List Char
  forceBodyMode : Bool
  splitIndex : Int
  boundaryTransitions : Nat
  accumulatedBody : List Char
  accumulatedReasonLen : Nat
  hasContent : Bool
  receivedItemsCount : Nat
  staleDoneIgnored : Bool
deriving DecidableEq

/-- The state at session start (stream.py lines 47–73). -/
def initState : LoopState :=
  { accReasonState := []
    accBodyState := []
    boundaryBuffer := []
    forceBodyMode := false
    splitIndex := -1
    boundaryTransitions := 0
    accumulatedBody := []
    accumulatedReasonLen := 0
    hasContent := false
    receivedItemsCount := 0
    staleDoneIgnored := false }

/-- `received_items_count += 1` (line 161), performed for every non-`None`
queue item before any further inspection. -/
def bumpReceived (s : LoopState) : LoopState :=
  { s with receivedItemsCount := s.receivedItemsCount + 1 }

/-! ## Per-fragment processing (stream.py lines 188–254) -/

/-- Assemble the post-fragment state and the yielded event from the merged
accumulators, the boundary-logic outputs and the event's visible fields
(lines 239–254: totals, `has_content`, `stale_done_ignored = False`). -/
def packResult (s : LoopState) (f : Fragment) (accR accB buffer : List Char)
    (force : Bool) (split : Int) (trans : Nat) (evReason evBody : List Char) :
    LoopState × OutputEvent :=
  ({ accReasonState := accR
     accBodyState := accB
     boundaryBuffer := buffer
     forceBodyMode := force
     splitIndex := split
     boundaryTransitions := trans
     accumulatedBody := s.accumulatedBody ++ evBody
     accumulatedReasonLen := s.accumulatedReasonLen + evReason.length
     hasContent := s.hasContent || !evBody.isEmpty || !evReason.isEmpty
     receivedItemsCount := s.receivedItemsCount
     staleDoneIgnored := false },
   .record evReason evBody f.done)

/-- Process one accepted dict fragment: accumulation (lines 196–207),
boundary logic (lines 209–237), totals and flags (lines 239–252), and the
event mutation that is yielded at line 254. -/
def procFragment (s : LoopState) (f : Fragment) : LoopState × OutputEvent :=
  let m := mergeReason s.accReasonState f.reason
  let accR := m.1
  let newReasonDelta := m.2
  let accB := mergeBody s.accBodyState f.body
  if s.forceBodyMode then
    packResult s f accR accB s.boundaryBuffer true s.splitIndex s.boundaryTransitions
      (pyTake accR s.splitIndex) (accB ++ pyDrop accR s.splitIndex)
  else
    let textToCheck := s.boundaryBuffer ++ newReasonDelta
    match toolSearch textToCheck with
    | some mStart =>
        let idx : Int := (accR.length : Int) - (textToCheck.length : Int) + (mStart : Int)
        packResult s f accR accB s.boundaryBuffer true idx (s.boundaryTransitions + 1)
          (pyTake accR idx) (accB ++ pyDrop accR idx)
    | none =>
        packResult s f accR accB (lastChars 100 textToCheck) false s.splitIndex
          s.boundaryTransitions accR accB

/-- The fragment-level session: iterate `procFragment` over a sequence of
accepted fragments (used for the state-invariant claims). -/
def processAll : LoopState → List Fragment → LoopState
  | s, [] => s
  | s, f :: fs => processAll (procFragment s f).1 fs

/-! ## Thinking-only recovery (stream.py lines 261–279, dict path) -/

/-- The DOM body-wait poll: up to 20 attempts, returning the first non-empty
probe result (`get_body_text_only_from_dom`), if any. -/
def recoveryScan (p : Nat → List Char) : Option (List Char) :=
  (List.range 20).findSome? fun i => if (p i).isEmpty then none else some (p i)

/-- Events produced by the dict-path recovery block (lines 261–279): if the
session accumulated reasoning but no body, and a page probe exists and
returns text within the budget, one `{body: text, reason: "", done: False}`
event is yielded.  `probe = none` models `page` being absent. -/
def recoveryEvents (probe : Option (Nat → List Char)) (s : LoopState) : List OutputEvent :=
  if 0 < s.accumulatedReasonLen ∧ s.accumulatedBody = [] then
    match probe with
    | some p =>
        match recoveryScan p with
        | some txt => [.record [] txt false]
        | none => []
    | none => []
  else []

/-- The stale-first-done guard condition (line 281), evaluated on the state
after the fragment was processed (which set `stale_done_ignored = False` at
line 252, so the last conjunct reads that updated flag). -/
def staleCond (s : LoopState) : Prop :=
  s.hasContent = false ∧ s.receivedItemsCount = 1 ∧ s.staleDoneIgnored = false

instance (s : LoopState) : Decidable (staleCond s) := by
  unfold staleCond; infer_instance

/-- `stale_done_ignored = True` (line 283). -/
def markStale (s : LoopState) : LoopState :=
  { s with staleDoneIgnored := true }

/-- Handle one accepted dict fragment at the loop level: yield the processed
event (line 254), then, on `done=True`, run the recovery block and the
stale-first-done check.  Returns the events emitted for this item and
`some newState` to continue polling or `none` to break out of the loop. -/
def handleFragment (probe : Option (Nat → List Char)) (s : LoopState) (f : Fragment) :
    List OutputEvent × Option LoopState :=
  let r := procFragment s f
  if f.done then
    let recs := recoveryEvents probe r.1
    if staleCond r.1 then (r.2 :: recs, some (markStale r.1))
    else (r.2 :: recs, none)
  else ([r.2], some r.1)

/-! ## The poll loop (stream.py lines 110–297), queue-item level

The model consumes a finite list of queue items.  The watchdog branches
(silence, TTFB, hard ceiling) only fire on empty polls and depend on wall
clock; they are outside the model, so an exhausted queue simply ends the
modelled trace. -/

/-- The reconciliation loop over the remaining queue items.  A `sentinel`
breaks immediately (line 156–158); a `rawStr` falls through both payload
branches and is dropped by the `continue` (lines 184–185, 289–297); a
`wrapped` item is discarded when its timestamp predates the session start
(lines 174–180) and otherwise processed like a dict. -/
def runLoop (start : ℚ) (probe : Option (Nat → List Char)) :
    LoopState → List QueueItem → List OutputEvent
  | _, [] => []
  | _, .sentinel :: _ => []
  | s, .rawStr _ :: rest => runLoop start probe (bumpReceived s) rest
  | s, .wrapped ts f :: rest =>
      if ts < start then runLoop start probe (bumpReceived s) rest
      else
        match handleFragment probe (bumpReceived s) f with
        | (evs, some s') => evs ++ runLoop start probe s' rest
        | (evs, none) => evs
  | s, .dict f :: rest =>
      match handleFragment probe (bumpReceived s) f with
      | (evs, some s') => evs ++ runLoop start probe s' rest
      | (evs, none) => evs

/-- The stale-data baseline (stream.py lines 42–43): a zero
`stream_start_time` falls back to ten seconds before the call time. -/
def effStartTime (now sst : ℚ) : ℚ :=
  if sst = 0 then now - 10 else sst

/-- `use_stream_response`, queue-item level: `queue = none` models
`STREAM_QUEUE is None` (lines 35–37: return before the first yield), and
otherwise the loop runs from the initial session state. -/
def use_stream_response (queue : Option (List QueueItem))
    (probe : Option (Nat → List Char)) (now sst : ℚ) : List OutputEvent :=
  match queue with
  | none => []
  | some items => runLoop (effStartTime now sst) probe initState items

/-! ## Concrete inputs used by individual claims -/

/-- The three Scenario A fragments (spec §8): a delta, then a cumulative
snapshot whose new suffix contains the tool marker, then a terminal delta. -/
def scenarioAFrags : List QueueItem :=
  [ .dict ⟨"Let me check.\n".data, [], false⟩,
    .dict ⟨"Let me check.\n```xml\n<tool name=".data, [], false⟩,
    .dict ⟨"...".data, [], true⟩ ]

/-- A DOM text probe that returns `"Paris"` on its third poll (attempt
index 2) and nothing before that — Scenario E's probe. -/
def probeParis (n : Nat) : List Char :=
  if n = 2 then "Paris".data else []

/-- A fragment whose reasoning text contains a tool marker. -/
def fTest : Fragment :=
  ⟨"\n<tool ".data, [], false⟩

/-- A session state in which the boundary has already been frozen
(`force_body_mode` set, `split_index` fixed). -/
def sForced : LoopState :=
  { initState with
      accReasonState := "abcd".data
      forceBodyMode := true
      splitIndex := 2
      boundaryTransitions := 1 }

/-- A content-carrying terminal fragment (used to witness C9). -/
def f9 : Fragment :=
  ⟨"hi".data, [], true⟩

/-! ## Reason-only runs for the shape-agnostic-merge claim (C8) -/

/-- Run only the reason-field merge over a sequence of incoming values. -/
def accReasonRun : List Char → List (List Char) → List Char
  | acc, [] => acc
  | acc, p :: ps => accReasonRun (mergeReason acc p).1 ps

/-- The final `acc_reason_state` after feeding the given incoming values
into a fresh session. -/
def accAfter (inputs : List (List Char)) : List Char :=
  accReasonRun [] inputs

/-- The cumulative-snapshot presentation of a delta sequence: each snapshot
is the concatenation of all deltas so far (starting from `pre`). -/
def snapshots : List (List Char) → List Char → List (List Char)
  | [], _ => []
  | d :: ds, pre => (pre ++ d) :: snapshots ds (pre ++ d)

/-- A delta sequence is unambiguous for the prefix heuristic when no delta
would itself satisfy the cumulative-snapshot test against the text
accumulated before it. -/
def deltasUnambiguous : List Char → List (List Char) → Bool
  | _, [] => true
  | acc, d :: ds =>
      !(!d.isEmpty && !acc.isEmpty && acc.isPrefixOf d) && deltasUnambiguous (acc ++ d) ds

/-- The transition-count invariant maintained by the session: the boundary
transition counter is 0 before the mode flips and 1 after. -/
def transInv (s : LoopState) : Prop :=
  (s.forceBodyMode = false ∧ s.boundaryTransitions = 0) ∨
  (s.forceBodyMode = true ∧ s.boundaryTransitions = 1)

/-! ## Helper lemmas -/

theorem isPrefixOf_length_le (l₁ l₂ : List Char) (h : l₁.isPrefixOf l₂ = true) :
    l₁.length ≤ l₂.length := by
  have h2 : l₁ <+: l₂ := by simpa using h
  exact h2.length_le

theorem isPrefixOf_append_self (l₁ l₂ : List Char) :
    l₁.isPrefixOf (l₁ ++ l₂) = true := by
  induction l₁ with
  | nil => simp [List.isPrefixOf]
  | cons a as ih => simp [List.isPrefixOf, ih]

theorem mergeReason_fst_length (acc p : List Char) :
    acc.length ≤ (mergeReason acc p).1.length := by
  unfold mergeReason
  split
  next h =>
    simp only [Bool.and_eq_true] at h
    exact isPrefixOf_length_le acc p h.2
  next => simp

theorem mergeBody_length (acc p : List Char) :
    acc.length ≤ (mergeBody acc p).length := by
  unfold mergeBody
  split
  next h =>
    simp only [Bool.and_eq_true] at h
    exact isPrefixOf_length_le acc p h.2
  next => simp

theorem procFragment_accReason (s : LoopState) (f : Fragment) :
    (procFragment s f).1.accReasonState = (mergeReason s.accReasonState f.reason).1 := by
  unfold procFragment
  dsimp only
  split
  · rfl
  · split <;> rfl

theorem procFragment_accBody (s : LoopState) (f : Fragment) :
    (procFragment s f).1.accBodyState = mergeBody s.accBodyState f.body := by
  unfold procFragment
  dsimp only
  split
  · rfl
  · split <;> rfl

theorem procFragment_reason_mono (s : LoopState) (f : Fragment) :
    s.accReasonState.length ≤ (procFragment s f).1.accReasonState.length := by
  rw [procFragment_accReason]
  exact mergeReason_fst_length _ _

theorem procFragment_body_mono (s : LoopState) (f : Fragment) :
    s.accBodyState.length ≤ (procFragment s f).1.accBodyState.length := by
  rw [procFragment_accBody]
  exact mergeBody_length _ _

theorem procFragment_forced (s : LoopState) (f : Fragment) (h : s.forceBodyMode = true) :
    (procFragment s f).1.forceBodyMode = true ∧
    (procFragment s f).1.splitIndex = s.splitIndex ∧
    (procFragment s f).1.boundaryTransitions = s.boundaryTransitions := by
  simp [procFragment, packResult, h]

theorem procFragment_unforced (s : LoopState) (f : Fragment) (h : s.forceBodyMode = false) :
    ((procFragment s f).1.forceBodyMode = true ↔
      (toolSearch (s.boundaryBuffer ++ (mergeReason s.accReasonState f.reason).2)).isSome = true) ∧
    ((procFragment s f).1.forceBodyMode = true →
      (procFragment s f).1.boundaryTransitions = s.boundaryTransitions + 1) ∧
    ((procFragment s f).1.forceBodyMode = false →
      (procFragment s f).1.boundaryTransitions = s.boundaryTransitions) := by
  unfold procFragment
  dsimp only
  split
  next hf => rw [h] at hf; cases hf
  next =>
    split
    next mStart htc => simp [packResult, htc]
    next htc => simp [packResult, htc]

theorem procFragment_transInv (s : LoopState) (f : Fragment) (h : transInv s) :
    transInv (procFragment s f).1 := by
  rcases h with ⟨hf, ht⟩ | ⟨hf, ht⟩
  · rcases procFragment_unforced s f hf with ⟨_, h1, h0⟩
    cases hnf : (procFragment s f).1.forceBodyMode with
    | true => exact Or.inr ⟨hnf, by rw [h1 hnf, ht]⟩
    | false => exact Or.inl ⟨hnf, by rw [h0 hnf, ht]⟩
  · rcases procFragment_forced s f hf with ⟨h1, _, h2⟩
    exact Or.inr ⟨h1, by rw [h2, ht]⟩

theorem processAll_transInv (frags : List Fragment) :
    ∀ s : LoopState, transInv s → transInv (processAll s frags) := by
  induction frags with
  | nil => intro s h; exact h
  | cons f fs ih => intro s h; exact ih (procFragment s f).1 (procFragment_transInv s f h)

theorem mergeReason_snapshot (pre d : List Char) :
    (mergeReason pre (pre ++ d)).1 = pre ++ d := by
  unfold mergeReason
  split
  · rfl
  next h =>
    cases pre with
    | nil => simp
    | cons a as =>
      exact absurd (by simp [isPrefixOf_append_self]) h

theorem accReasonRun_snapshots (ds : List (List Char)) :
    ∀ pre : List Char, accReasonRun pre (snapshots ds pre) = pre ++ ds.flatten := by
  induction ds with
  | nil => intro pre; simp [snapshots, accReasonRun]
  | cons d ds ih =>
    intro pre
    simp only [snapshots, accReasonRun, mergeReason_snapshot]
    rw [ih (pre ++ d)]
    simp

theorem accReasonRun_deltas (ds : List (List Char)) :
    ∀ acc : List Char, deltasUnambiguous acc ds = true →
      accReasonRun acc ds = acc ++ ds.flatten := by
  induction ds with
  | nil => intro acc _; simp [accReasonRun]
  | cons d ds ih =>
    intro acc h
    simp only [deltasUnambiguous, Bool.and_eq_true] at h
    have hstep : (mergeReason acc d).1 = acc ++ d := by
      unfold mergeReason
      split
      next hc => rw [hc] at h; simp at h
      next => rfl
    simp only [accReasonRun, hstep]
    rw [ih (acc ++ d) h.2]
    simp

/-! ## Claim theorems -/

/-- C1: For a fragment whose incoming reason value is non-empty, whose
accumulated reason value is non-empty, and whose incoming value starts with
the accumulated value, the merge does replace the accumulated value with the
incoming one — but the effective delta handed to boundary scanning is always
the empty string, not the incoming value's suffix beyond the old accumulated
length: on accumulated `"A"` and incoming `"AB"` the source's
`p_reason[len(acc_reason_state):]` is evaluated after `acc_reason_state` was
already overwritten, yielding `""` where the suffix beyond the old length is
`"B"`. -/
theorem c1_snapshot_delta_empty :
    mergeReason "A".data "AB".data = ("AB".data, []) ∧
    "AB".data.drop "A".data.length = "B".data := by
  constructor
  · rfl
  · rfl

/-- C2: Fed exactly the three Scenario A fragments, the engine never sets a
split: the cumulative second fragment produces an empty effective delta, so
the marker is never scanned and the final event carries the whole accumulated
text (marker included) as `reason` and an empty `body` — not the claimed
split.  The last conjunct shows the marker itself is findable: the pattern
matches the full concatenation at offset 13, so the failure lies in the delta
plumbing, not in the pattern. -/
theorem c2_scenarioA_eval :
    use_stream_response (some scenarioAFrags) none 100 1 =
      [ .record "Let me check.\n".data [] false,
        .record "Let me check.\n```xml\n<tool name=".data [] false,
        .record "Let me check.\n```xml\n<tool name=...".data [] true ] ∧
    toolSearch "Let me check.\n```xml\n<tool name=".data = some 13 := by
  constructor
  · rfl
  · rfl

/-- C3: On a queue holding two content-less `done=true` fragments, the
produced stream contains TWO `done=true` events and the first of them is not
last: the dict path yields every fragment (line 254) before the done
handling, so the "ignored" stale first done event is still emitted to the
consumer while polling continues — refuting the claim that it is ignored
without being emitted and that exactly one `done=true` event is produced. -/
theorem c3_stale_done_emitted :
    use_stream_response
        (some [.dict ⟨[], [], true⟩, .dict ⟨[], [], true⟩]) none 100 1 =
      [.record [] [] true, .record [] [] true] := by
  rfl

/-- C4: A session that accumulated only reasoning and then receives
`done=true`, with a DOM probe that returns `"Paris"` on its third poll,
emits the recovered answer-only event AFTER the terminal `done=true` event,
not before it: the terminal fragment is yielded unconditionally at line 254
before the recovery block (lines 261–279) runs. -/
theorem c4_recovery_after_terminal :
    use_stream_response
        (some [.dict ⟨"hi".data, [], false⟩, .dict ⟨[], [], true⟩])
        (some probeParis) 100 1 =
      [ .record "hi".data [] false,
        .record "hi".data [] true,
        .record [] "Paris".data false ] := by
  rfl

/-- C5 counterexample: a queue string that fails to decode as JSON is NOT
passed through to the consumer — feeding a queue holding exactly one such
string produces no event at all (the live dict-path refactor drops it at the
`pass`/`continue` of lines 289–297), contradicting the claimed opaque
pass-through. -/
theorem c5_counterexample :
    use_stream_response (some [.rawStr "hello".data]) none 100 1 = [] := by
  rfl

/-- C5 amended: a queue string that fails to decode as JSON is silently
discarded: it increments `received_items_count` but yields no event, leaves
all reconciliation state untouched, and raises no error; the loop continues
with the remaining items exactly as if the string had not been there. -/
theorem c5_amended_raw_string_dropped
    (cs : List Char) (rest : List QueueItem) (s : LoopState) (start : ℚ)
    (probe : Option (Nat → List Char)) :
    runLoop start probe s (.rawStr cs :: rest) =
      runLoop start probe (bumpReceived s) rest := by
  rfl

/-- C6: the mode flag transitions THINKING → ANSWERING at most once per
session and never reverts.  First conjunct: starting from the session's
initial state, any fragment sequence performs at most one boundary
transition.  Second conjunct: once `force_body_mode` is set, every further
fragment keeps it set, reapplies the frozen `split_index` unchanged, and
performs no further transition.  Third conjunct: while the flag is unset, a
fragment flips it exactly when the boundary scan (sliding window plus new
effective delta) finds a marker — so only the first scanned marker occurrence
triggers the transition. -/
theorem c6_single_mode_transition :
    (∀ frags : List Fragment, (processAll initState frags).boundaryTransitions ≤ 1) ∧
    (∀ (s : LoopState) (f : Fragment), s.forceBodyMode = true →
      (procFragment s f).1.forceBodyMode = true ∧
      (procFragment s f).1.splitIndex = s.splitIndex ∧
      (procFragment s f).1.boundaryTransitions = s.boundaryTransitions) ∧
    (∀ (s : LoopState) (f : Fragment), s.forceBodyMode = false →
      ((procFragment s f).1.forceBodyMode = true ↔
        (toolSearch (s.boundaryBuffer ++ (mergeReason s.accReasonState f.reason).2)).isSome = true)) := by
  refine ⟨fun frags => ?_, fun s f h => procFragment_forced s f h,
    fun s f h => (procFragment_unforced s f h).1⟩
  have h0 : transInv initState := Or.inl ⟨rfl, rfl⟩
  rcases processAll_transInv frags initState h0 with ⟨_, ht⟩ | ⟨_, ht⟩ <;> omega

/-- C6 witness: at a state with the boundary already frozen, processing a
marker-bearing fragment keeps the mode set and the split index unchanged;
and from the fresh session state the same fragment flips the mode exactly
because the scan finds its marker. -/
theorem c6_witness :
    ((procFragment sForced fTest).1.forceBodyMode = true ∧
     (procFragment sForced fTest).1.splitIndex = sForced.splitIndex ∧
     (procFragment sForced fTest).1.boundaryTransitions = sForced.boundaryTransitions) ∧
    ((procFragment initState fTest).1.forceBodyMode = true ↔
      (toolSearch (initState.boundaryBuffer ++
        (mergeReason initState.accReasonState fTest.reason).2)).isSome = true) :=
  ⟨c6_single_mode_transition.2.1 sForced fTest rfl,
   c6_single_mode_transition.2.2 initState fTest rfl⟩

/-- C7: neither accumulated buffer ever shrinks: across any sequence of
accepted fragments, from any session state, the lengths of
`acc_reason_state` and `acc_body_state` are both non-decreasing (for the
reason buffer this holds throughout the session, which subsumes the claim's
restriction to `mode = THINKING`). -/
theorem c7_buffers_never_shrink (s : LoopState) (frags : List Fragment) :
    s.accReasonState.length ≤ (processAll s frags).accReasonState.length ∧
    s.accBodyState.length ≤ (processAll s frags).accBodyState.length := by
  induction frags generalizing s with
  | nil => exact ⟨le_refl _, le_refl _⟩
  | cons f fs ih =>
    rcases ih (procFragment s f).1 with ⟨h1, h2⟩
    exact ⟨le_trans (procFragment_reason_mono s f) h1,
           le_trans (procFragment_body_mono s f) h2⟩

/-- C8 counterexample: the same logical reasoning text `"aab"`, fed as the
deltas `["a", "ab"]` versus as the cumulative snapshots `["a", "aab"]`,
yields different final accumulated reason buffers: the second delta `"ab"`
starts with the accumulated `"a"`, is misread as a snapshot, and the
delta-shaped run ends with `"ab"` while the snapshot-shaped run ends with
`"aab"`. -/
theorem c8_counterexample :
    accAfter ["a".data, "ab".data] ≠
      accAfter (snapshots ["a".data, "ab".data] []) := by
  decide

/-- C8 amended: feeding the same logical reasoning text as all-deltas or as
all-cumulative-snapshots yields the same final accumulated reason buffer
PROVIDED the delta run is unambiguous for the prefix heuristic — no
non-empty delta arrives when the text accumulated so far is non-empty and is
a prefix of that delta.  Under that proviso both runs end with the full
concatenated text. -/
theorem c8_amended_shape_agnostic (ds : List (List Char))
    (h : deltasUnambiguous [] ds = true) :
    accAfter ds = accAfter (snapshots ds []) := by
  unfold accAfter
  rw [accReasonRun_deltas ds [] h, accReasonRun_snapshots ds []]

/-- C8 witness: the unambiguous delta sequence `["ab", "cd"]` and its
snapshot presentation give the same final buffer. -/
theorem c8_witness :
    accAfter ["ab".data, "cd".data] =
      accAfter (snapshots ["ab".data, "cd".data] []) :=
  c8_amended_shape_agnostic ["ab".data, "cd".data] (by decide)

/-- C9: with the default `stream_start_time = 0.0`, the stale-data baseline
becomes ten seconds before the call time, and any timestamp-wrapped fragment
whose timestamp is at most ten seconds in the past is accepted and processed
exactly like an unwrapped fragment (merged, not discarded as stale). -/
theorem c9_default_start_time :
    (∀ now : ℚ, effStartTime now 0 = now - 10) ∧
    ∀ (now ts : ℚ) (f : Fragment) (probe : Option (Nat → List Char)),
      now - 10 ≤ ts →
      use_stream_response (some [.wrapped ts f]) probe now 0 =
      use_stream_response (some [.dict f]) probe now 0 := by
  constructor
  · intro now; simp [effStartTime]
  · intro now ts f probe h
    have hs : effStartTime now 0 = now - 10 := by simp [effStartTime]
    have hlt : ¬ ts < effStartTime now 0 := by rw [hs]; exact not_lt.mpr h
    simp [use_stream_response, runLoop, hlt]

/-- C9 witness: at call time 100 with the default start time, a wrapped
fragment stamped 95 (five seconds in the past) is processed exactly like the
bare fragment. -/
theorem c9_witness :
    use_stream_response (some [.wrapped 95 f9]) none 100 0 =
      use_stream_response (some [.dict f9]) none 100 0 :=
  c9_default_start_time.2 100 95 f9 none (by norm_num)

/-- C10: when the external event source is absent (`STREAM_QUEUE is None`),
the generator returns immediately: no event at all is yielded — in
particular no terminal `done=true` event — and no error is raised (the model
is total). -/
theorem c10_missing_queue_yields_nothing
    (probe : Option (Nat → List Char)) (now sst : ℚ) :
    use_stream_response none probe now sst = [] := by
  rfl
